import Mathlib

/-!
# Verification of the prediction telemetry pipeline (frontend `App.js`)

Shallow embedding of the data-bearing logic of `src/frontend/src/App.js`:

* the confidence-distribution histogram built by `ConfidenceChart`
  (bin edges, per-bin filters, the empty-snapshot early return);
* the bounded trend series maintained by `AnalyticsDashboard`'s interval
  callback (append then `shift()` when more than 20 points);
* the simulated tick counts `Math.floor(Math.random() * 20) + 5` and
  `Math.floor(Math.random() * 15) + 3`;
* `handleSubmit` of `SpamDetector` / `MalwareDetector` (fetch outcome
  handling and the append to the prediction history);
* the spam submit gate (`disabled={loading || emailText.length < 10}`);
* `MalwareDetector`'s `formData` field list and `handleChange`
  (`parseInt(value) || 0`).

JavaScript numbers are modelled as `ℚ` (confidences, probabilities,
random draws) and `ℤ`/`ℕ` (counters); strings as `String`.  Decimal
constants of the source such as `0.1` are written as the exact rationals
`mkRat k 10`.
-/

namespace App

/-- A prediction result as stored in `predictionHistory` by `handleSubmit`:
the spread of the response body `{...data}` plus the `type` tag and the
`timestamp`.  The free-form `details` object is opaque passthrough and is
not modelled. -/
structure PredictionResult where
  prediction : String
  confidence : ℚ
  probabilities : List (String × ℚ)
  type : String
  timestamp : ℕ
  deriving DecidableEq

/-! ## ConfidenceChart: the histogram aggregator (App.js lines 150-274) -/

/-- The bin-edge array `const bins = [0, 0.1, ..., 0.9, 1.0]` (line 178). -/
def binEdges : List ℚ :=
  [0, mkRat 1 10, mkRat 2 10, mkRat 3 10, mkRat 4 10, mkRat 5 10,
    mkRat 6 10, mkRat 7 10, mkRat 8 10, mkRat 9 10, 1]

/-- Label of bin `i`, from the template
`(bin*100).toFixed(0) ++ "-" ++ (bins[i+1]*100).toFixed(0) ++ "%"`. -/
def binLabel (i : ℕ) : String :=
  toString (10 * i) ++ "-" ++ toString (10 * (i + 1)) ++ "%"

/-- The count of one bin: `allPredictions.filter(p => p.confidence >= bin
&& p.confidence < bins[i + 1]).length` (lines 180-182), applied to the
list of confidences. -/
def binCount (snap : List ℚ) (lo hi : ℚ) : ℕ :=
  (snap.filter (fun c => decide (lo ≤ c) && decide (c < hi))).length

/-- The histogram `bins.slice(0, -1).map((bin, i) => ...)` (lines 179-184):
ten labelled bins with the counts of `binCount`. -/
def histogram (snap : List ℚ) : List (String × ℕ) :=
  (List.range 10).map (fun i =>
    (binLabel i, binCount snap (binEdges.getD i 0) (binEdges.getD (i + 1) 0)))

/-- Total of the bin counts of a histogram. -/
def sumCounts (h : List (String × ℕ)) : ℕ :=
  (h.map Prod.snd).sum

/-- The tagged combination of the two history partitions (lines 158-161):
`[...spam.map(p => ({...p, type:'spam'})), ...malware.map(... 'malware')]`,
reduced to the `(type, confidence)` projection the chart uses. -/
def taggedPreds (spamHist malwareHist : List PredictionResult) :
    List (String × ℚ) :=
  spamHist.map (fun p => ("spam", p.confidence)) ++
    malwareHist.map (fun p => ("malware", p.confidence))

/-- The filter step (lines 163-165): when `filterType !== 'all'`, keep only
predictions whose type equals `filterType`. -/
def filteredPreds (spamHist malwareHist : List PredictionResult)
    (filterType : String) : List (String × ℚ) :=
  if filterType = "all" then taggedPreds spamHist malwareHist
  else (taggedPreds spamHist malwareHist).filter (fun q => q.1 == filterType)

/-- The chart effect body: `if (allPredictions.length === 0) return;`
(line 167) then the histogram build.  `none` models the early return in
which no histogram is produced. -/
def confidenceChart (spamHist malwareHist : List PredictionResult)
    (filterType : String) : Option (List (String × ℕ)) :=
  if (filteredPreds spamHist malwareHist filterType).length = 0 then none
  else some (histogram ((filteredPreds spamHist malwareHist filterType).map Prod.snd))

/-- A sample result with confidence 0.95, used as concrete input. -/
def exResult : PredictionResult :=
  { prediction := "spam", confidence := mkRat 95 100,
    probabilities := [("ham", mkRat 5 100), ("spam", mkRat 95 100)],
    type := "spam", timestamp := 0 }

/-! ## AnalyticsDashboard: the trend stream (App.js lines 63-90) -/

/-- One point of the threat-trend series, `{ time, spam, malware }`
(lines 77-81); `time` abstracts `timestamp.toLocaleTimeString()`. -/
structure TrendPoint where
  time : ℕ
  spam : ℤ
  malware : ℤ
  deriving DecidableEq

/-- The spam count of a simulated tick,
`Math.floor(Math.random() * 20) + 5` (line 79), for a draw `r ∈ [0,1)`. -/
def spamTickCount (r : ℚ) : ℤ := ⌊r * 20⌋ + 5

/-- The malware count of a simulated tick,
`Math.floor(Math.random() * 15) + 3` (line 80). -/
def malwareTickCount (r : ℚ) : ℤ := ⌊r * 15⌋ + 3

/-- The TrendPoint one tick produces (lines 74-81), from the timestamp
and the two random draws. -/
def tickPoint (t : ℕ) (r1 r2 : ℚ) : TrendPoint :=
  { time := t, spam := spamTickCount r1, malware := malwareTickCount r2 }

/-- One activation of the interval callback (lines 72-86): push the new
point, then `if (newData.length > 20) newData.shift()`. -/
def pushTrend (prev : List TrendPoint) (p : TrendPoint) : List TrendPoint :=
  let newData := prev ++ [p]
  if newData.length > 20 then newData.tail else newData

/-- The trend sequence after the ticks of `ps` have fired in order,
starting from the initial state `[]` of the `threatTrends` state hook. -/
def runTrend (ps : List TrendPoint) : List TrendPoint :=
  ps.foldl pushTrend []

/-- Twenty-five concrete tick points, used as concrete input. -/
def tickList : List TrendPoint :=
  (List.range 25).map (fun j => { time := j, spam := 0, malware := 0 })

/-! ## SpamDetector / MalwareDetector handleSubmit (lines 466-498, 633-665) -/

/-- The contract-relevant part of a parsed response body `data`. -/
structure RespBody where
  prediction : String
  confidence : ℚ
  probabilities : List (String × ℚ)
  deriving DecidableEq

/-- Outcome of the `fetch` call as the `try` block observes it:
a rejected fetch (network/transport error with its message), or a
response with its `ok` flag and — when `response.json()` succeeds —
the parsed body (`none` models a body that is not parseable JSON). -/
inductive FetchOutcome where
  | transportFailure (msg : String)
  | response (ok : Bool) (body : Option RespBody)
  deriving DecidableEq

/-- What `handleSubmit` leaves in the component state: `setResult(data)`
on success, or `setError(err.message)` on any thrown error. -/
inductive SubmitOutcome where
  | success (data : RespBody)
  | errorMsg (msg : String)
  deriving DecidableEq

/-- The history entry `{ ...data, type: kind, timestamp }` appended on
success (lines 489-492 and 656-659). -/
def mkResult (kind : String) (ts : ℕ) (data : RespBody) : PredictionResult :=
  { prediction := data.prediction, confidence := data.confidence,
    probabilities := data.probabilities, type := kind, timestamp := ts }

/-- The shared body of `SpamDetector.handleSubmit` (lines 472-498) and
`MalwareDetector.handleSubmit` (lines 639-665): throw `'Prediction
failed'` when `!response.ok`; throw when the body does not parse; else
record the result and append it to the `kind` partition of the history.
Returns the submit outcome and the new partition contents. -/
def handleSubmit (kind : String) (ts : ℕ) (hist : List PredictionResult) :
    FetchOutcome → SubmitOutcome × List PredictionResult
  | .transportFailure msg => (.errorMsg msg, hist)
  | .response ok body =>
    if ok then
      match body with
      | some data => (.success data, hist ++ [mkResult kind ts data])
      | none => (.errorMsg "SyntaxError: unexpected response body", hist)
    else (.errorMsg "Prediction failed", hist)

/-- The fetch outcomes that make the `try` block throw: transport
failure, non-success status, or a body that fails JSON parsing. -/
def isFailureOutcome : FetchOutcome → Bool
  | .transportFailure _ => true
  | .response ok body => !ok || body.isNone

/-- Whether a submit outcome surfaced an error message. -/
def isErrorOutcome : SubmitOutcome → Bool
  | .success _ => false
  | .errorMsg _ => true

/-- The two class keys the response contract expects for a kind. -/
def expectedKeys (kind : String) : List String :=
  if kind = "spam" then ["ham", "spam"] else ["benign", "malware"]

/-- Stated from the specification's contract for comparison with the
code: a body is in contract when `confidence ∈ [0,1]` and `probabilities`
holds both expected class keys of the kind. -/
def contractOKSpec (kind : String) (b : RespBody) : Bool :=
  decide (0 ≤ b.confidence) && decide (b.confidence ≤ 1) &&
    (expectedKeys kind).all (fun k => (b.probabilities.map Prod.fst).contains k)

/-- The malformed body of the spec's example:
`{"prediction":"spam","confidence":1.5,...}`. -/
def badBody : RespBody :=
  { prediction := "spam", confidence := mkRat 3 2,
    probabilities := [("ham", -(mkRat 1 2)), ("spam", mkRat 3 2)] }

/-! ## SpamDetector submit gate (lines 519-532) -/

/-- The submit-button gate `disabled={loading || emailText.length < 10}`
(line 529). -/
def spamSubmitDisabled (loading : Bool) (emailText : String) : Bool :=
  loading || decide (emailText.length < 10)

/-- A request can only be issued by submitting the form, which the
disabled button prevents: the fetch of `handleSubmit` is reachable
exactly when the gate is off. -/
def spamRequestIssued (loading : Bool) (emailText : String) : Bool :=
  !spamSubmitDisabled loading emailText

/-! ## MalwareDetector formData and handleChange (lines 584-631) -/

/-- The field names of the `formData` record (lines 585-619), in source
order. -/
def malwareFieldNames : List String :=
  ["millisecond", "state", "usage_counter", "prio", "static_prio",
   "normal_prio", "policy", "vm_pgoff", "vm_truncate_count", "task_size",
   "cached_hole_size", "free_area_cache", "mm_users", "map_count",
   "hiwater_rss", "total_vm", "shared_vm", "exec_vm", "reserved_vm",
   "nr_ptes", "end_data", "last_interval", "nvcsw", "nivcsw", "min_flt",
   "maj_flt", "fs_excl_counter", "lock", "utime", "stime", "gtime",
   "cgtime", "signal_nvcsw"]

/-- The initial `formData` state (lines 585-619) as an ordered record of
named numeric fields. -/
def initialFormData : List (String × ℤ) :=
  [("millisecond", 0), ("state", 0), ("usage_counter", 0),
   ("prio", 3069378560), ("static_prio", 14274), ("normal_prio", 0),
   ("policy", 0), ("vm_pgoff", 0), ("vm_truncate_count", 15000),
   ("task_size", 0), ("cached_hole_size", 0), ("free_area_cache", 0),
   ("mm_users", 0), ("map_count", 0), ("hiwater_rss", 0),
   ("total_vm", 0), ("shared_vm", 0), ("exec_vm", 0),
   ("reserved_vm", 0), ("nr_ptes", 0), ("end_data", 0),
   ("last_interval", 0), ("nvcsw", 0), ("nivcsw", 0), ("min_flt", 0),
   ("maj_flt", 120), ("fs_excl_counter", 0), ("lock", 3204448256),
   ("utime", 380000), ("stime", 4), ("gtime", 0), ("cgtime", 0),
   ("signal_nvcsw", 0)]

/-- The keys of the malware predict request body
`JSON.stringify(formData)` (line 645): the fields of the record in
insertion order. -/
def requestKeys (formData : List (String × ℤ)) : List String :=
  formData.map Prod.fst

/-- Whitespace skipped by `parseInt` before anything else. -/
def isSpaceChar (c : Char) : Bool :=
  decide (c = ' ') || decide (c = '\t') || decide (c = '\n') || decide (c = '\r')

/-- Decimal digit test. -/
def isDigitChar (c : Char) : Bool :=
  decide ('0' ≤ c) && decide (c ≤ '9')

/-- Numeric value of a decimal digit character. -/
def digitVal (c : Char) : ℕ := c.toNat - '0'.toNat

/-- Value of a run of decimal digit characters. -/
def natOfDigitRun (ds : List Char) : ℕ :=
  ds.foldl (fun a c => 10 * a + digitVal c) 0

/-- The longest leading digit run, or failure when there is none (the
`NaN` case of `parseInt`). -/
def parseDigits (cs : List Char) : Option ℕ :=
  let ds := cs.takeWhile isDigitChar
  if ds.isEmpty then none else some (natOfDigitRun ds)

/-- The ECMAScript `parseInt(value)` applied to the decimal strings a
numeric input produces: skip leading whitespace, read an optional sign,
then the longest leading digit run; anything after the run (such as a
decimal point and fractional digits) is ignored; no digits means `NaN`,
modelled as `none`. -/
def jsParseIntCore (cs : List Char) : Option ℤ :=
  match cs.dropWhile isSpaceChar with
  | [] => none
  | c :: rest =>
    if c = '-' then (parseDigits rest).map (fun n => -(n : ℤ))
    else if c = '+' then (parseDigits rest).map (fun n => (n : ℤ))
    else (parseDigits (c :: rest)).map (fun n => (n : ℤ))

/-- `parseInt` on a string. -/
def jsParseInt (s : String) : Option ℤ :=
  jsParseIntCore s.data

/-- The value `handleChange` stores for a field (lines 625-631):
`parseInt(value) || 0`, i.e. the parsed integer, with `NaN` (and `0`
itself) replaced by `0`. -/
def handleChangeValue (s : String) : ℤ :=
  (jsParseInt s).getD 0

/-! ## Histogram lemmas -/

theorem binCount_cons (x : ℚ) (l : List ℚ) (lo hi : ℚ) :
    binCount (x :: l) lo hi =
      binCount l lo hi + (if lo ≤ x ∧ x < hi then 1 else 0) := by
  simp only [binCount, List.filter_cons]
  by_cases h1 : lo ≤ x <;> by_cases h2 : x < hi <;>
    simp [h1, h2, Nat.add_comm]

theorem binCount_adj (s : List ℚ) (a b c : ℚ) (h1 : a ≤ b) (h2 : b ≤ c) :
    binCount s a b + binCount s b c = binCount s a c := by
  induction s with
  | nil => rfl
  | cons x l ih =>
    rw [binCount_cons, binCount_cons, binCount_cons]
    have hx : (if a ≤ x ∧ x < b then 1 else 0) + (if b ≤ x ∧ x < c then 1 else 0)
        = (if a ≤ x ∧ x < c then 1 else 0) := by
      by_cases p1 : a ≤ x <;> by_cases p2 : x < b <;>
        by_cases p3 : b ≤ x <;> by_cases p4 : x < c <;>
        simp [p1, p2, p3, p4] <;> linarith
    omega

theorem binCount_adj_assoc (s : List ℚ) (a b c : ℚ) (r : ℕ)
    (h1 : a ≤ b) (h2 : b ≤ c) :
    binCount s a b + (binCount s b c + r) = binCount s a c + r := by
  rw [← Nat.add_assoc, binCount_adj s a b c h1 h2]

theorem histogram_expand (snap : List ℚ) :
    sumCounts (histogram snap) =
      binCount snap 0 (mkRat 1 10) + (binCount snap (mkRat 1 10) (mkRat 2 10) +
      (binCount snap (mkRat 2 10) (mkRat 3 10) +
      (binCount snap (mkRat 3 10) (mkRat 4 10) +
      (binCount snap (mkRat 4 10) (mkRat 5 10) +
      (binCount snap (mkRat 5 10) (mkRat 6 10) +
      (binCount snap (mkRat 6 10) (mkRat 7 10) +
      (binCount snap (mkRat 7 10) (mkRat 8 10) +
      (binCount snap (mkRat 8 10) (mkRat 9 10) +
      (binCount snap (mkRat 9 10) 1 + 0))))))))) := by
  rfl

theorem histogram_sum_eq (snap : List ℚ) :
    sumCounts (histogram snap) = binCount snap 0 1 := by
  rw [histogram_expand]
  rw [binCount_adj_assoc snap 0 (mkRat 1 10) (mkRat 2 10) _ (by decide) (by decide)]
  rw [binCount_adj_assoc snap 0 (mkRat 2 10) (mkRat 3 10) _ (by decide) (by decide)]
  rw [binCount_adj_assoc snap 0 (mkRat 3 10) (mkRat 4 10) _ (by decide) (by decide)]
  rw [binCount_adj_assoc snap 0 (mkRat 4 10) (mkRat 5 10) _ (by decide) (by decide)]
  rw [binCount_adj_assoc snap 0 (mkRat 5 10) (mkRat 6 10) _ (by decide) (by decide)]
  rw [binCount_adj_assoc snap 0 (mkRat 6 10) (mkRat 7 10) _ (by decide) (by decide)]
  rw [binCount_adj_assoc snap 0 (mkRat 7 10) (mkRat 8 10) _ (by decide) (by decide)]
  rw [binCount_adj_assoc snap 0 (mkRat 8 10) (mkRat 9 10) _ (by decide) (by decide)]
  rw [binCount_adj_assoc snap 0 (mkRat 9 10) 1 _ (by decide) (by decide)]
  omega

theorem histogram_length (snap : List ℚ) : (histogram snap).length = 10 := by
  simp [histogram]

theorem histogram_getElem (snap : List ℚ) (i : ℕ) (h : i < 10) :
    (histogram snap)[i]? =
      some (binLabel i, binCount snap (binEdges.getD i 0) (binEdges.getD (i + 1) 0)) := by
  simp [histogram, List.getElem?_range, h]

theorem binCount_singleton (c lo hi : ℚ) :
    binCount [c] lo hi = 1 ↔ (lo ≤ c ∧ c < hi) := by
  by_cases h1 : lo ≤ c <;> by_cases h2 : c < hi <;>
    simp [binCount, List.filter, h1, h2]

/-! ## Trend stream lemmas -/

theorem runTrend_concat (ps : List TrendPoint) (p : TrendPoint) :
    runTrend (ps ++ [p]) = pushTrend (runTrend ps) p := by
  simp [runTrend, List.foldl_append]

theorem tail_append_of_ne_nil (l r : List TrendPoint) (h : l ≠ []) :
    (l ++ r).tail = l.tail ++ r := by
  cases l with
  | nil => exact absurd rfl h
  | cons a t => simp

theorem runTrend_eq_drop (ps : List TrendPoint) :
    runTrend ps = ps.drop (ps.length - 20) := by
  induction ps using List.reverseRecOn with
  | nil => rfl
  | append_singleton ps p ih =>
    rw [runTrend_concat, ih, pushTrend]
    by_cases h : ps.length ≥ 20
    · have hlen : (ps.drop (ps.length - 20) ++ [p]).length > 20 := by
        simp [List.length_drop]
        omega
      have hne : ps.drop (ps.length - 20) ≠ [] := by
        have : (ps.drop (ps.length - 20)).length = 20 := by
          simp [List.length_drop]; omega
        intro hnil
        rw [hnil] at this
        simp at this
      simp only [hlen, if_pos]
      rw [tail_append_of_ne_nil _ _ hne, List.tail_drop]
      have h1 : ps.length - 20 + 1 = (ps ++ [p]).length - 20 := by
        simp only [List.length_append, List.length_cons, List.length_nil]
        omega
      have h2 : (ps ++ [p]).length - 20 ≤ ps.length := by
        simp only [List.length_append, List.length_cons, List.length_nil]
        omega
      rw [h1, List.drop_append_of_le_length h2]
    · have hlen : ¬ (ps.drop (ps.length - 20) ++ [p]).length > 20 := by
        simp [List.length_drop]
        omega
      have h0 : ps.length - 20 = 0 := by omega
      have h0' : (ps ++ [p]).length - 20 = 0 := by
        simp only [List.length_append, List.length_cons, List.length_nil]
        omega
      simp only [hlen, if_neg, not_false_iff]
      rw [h0, h0']
      simp

theorem runTrend_length_le (ps : List TrendPoint) :
    (runTrend ps).length ≤ 20 := by
  rw [runTrend_eq_drop, List.length_drop]
  omega

theorem pushTrend_full (prev : List TrendPoint) (p : TrendPoint)
    (h : prev.length = 20) : pushTrend prev p = prev.tail ++ [p] := by
  have hne : prev ≠ [] := by
    intro hnil; rw [hnil] at h; simp at h
  have hlen : (prev ++ [p]).length > 20 := by simp [h]
  simp only [pushTrend, hlen, if_pos]
  exact tail_append_of_ne_nil prev [p] hne

/-! ## Tick count lemmas -/

theorem spamTickCount_bounds (r : ℚ) (h0 : 0 ≤ r) (h1 : r < 1) :
    5 ≤ spamTickCount r ∧ spamTickCount r ≤ 24 := by
  unfold spamTickCount
  have hlo : (0 : ℤ) ≤ ⌊r * 20⌋ := Int.floor_nonneg.mpr (by positivity)
  have hhi : ⌊r * 20⌋ < 20 := by
    rw [Int.floor_lt]
    push_cast
    nlinarith
  constructor <;> linarith

theorem malwareTickCount_bounds (r : ℚ) (h0 : 0 ≤ r) (h1 : r < 1) :
    3 ≤ malwareTickCount r ∧ malwareTickCount r ≤ 17 := by
  unfold malwareTickCount
  have hlo : (0 : ℤ) ≤ ⌊r * 15⌋ := Int.floor_nonneg.mpr (by positivity)
  have hhi : ⌊r * 15⌋ < 15 := by
    rw [Int.floor_lt]
    push_cast
    nlinarith
  constructor <;> linarith

/-! ## parseInt lemmas -/

theorem digit_not_space (c : Char) (h : isDigitChar c = true) :
    isSpaceChar c = false := by
  simp only [isDigitChar, Bool.and_eq_true, decide_eq_true_eq] at h
  by_cases h1 : c = ' '
  · subst h1; exact absurd h (by decide)
  by_cases h2 : c = '\t'
  · subst h2; exact absurd h (by decide)
  by_cases h3 : c = '\n'
  · subst h3; exact absurd h (by decide)
  by_cases h4 : c = '\r'
  · subst h4; exact absurd h (by decide)
  simp [isSpaceChar, h1, h2, h3, h4]

theorem digit_not_dash (c : Char) (h : isDigitChar c = true) : ¬ c = '-' := by
  rintro rfl
  exact absurd h (by decide)

theorem digit_not_plus (c : Char) (h : isDigitChar c = true) : ¬ c = '+' := by
  rintro rfl
  exact absurd h (by decide)

theorem takeWhile_digit_run (ds rest : List Char)
    (h : ∀ c ∈ ds, isDigitChar c = true) :
    (ds ++ '.' :: rest).takeWhile isDigitChar = ds := by
  induction ds with
  | nil =>
    simp [List.takeWhile_cons, show isDigitChar '.' = false from rfl]
  | cons a l ih =>
    have ha : isDigitChar a = true := h a (by simp)
    simp only [List.cons_append, List.takeWhile_cons, ha, if_pos]
    rw [ih (fun c hc => h c (by simp [hc]))]

theorem jsParseIntCore_digit_run (ds rest : List Char) (hne : ds ≠ [])
    (h : ∀ c ∈ ds, isDigitChar c = true) :
    jsParseIntCore (ds ++ '.' :: rest) = some ((natOfDigitRun ds : ℕ) : ℤ) := by
  cases ds with
  | nil => exact absurd rfl hne
  | cons a l =>
    have ha : isDigitChar a = true := h a (by simp)
    have hsp : isSpaceChar a = false := digit_not_space a ha
    have hm : ¬ a = '-' := digit_not_dash a ha
    have hp : ¬ a = '+' := digit_not_plus a ha
    have hdrop : ((a :: l) ++ '.' :: rest).dropWhile isSpaceChar
        = a :: (l ++ '.' :: rest) := by
      simp [List.dropWhile_cons, hsp]
    have htake : ((a :: l) ++ '.' :: rest).takeWhile isDigitChar = a :: l :=
      takeWhile_digit_run (a :: l) rest h
    rw [jsParseIntCore, hdrop]
    simp only [hm, hp, if_neg, not_false_iff]
    rw [parseDigits]
    simp only [← List.cons_append, htake]
    rfl

end App

/-! ## The claims -/

/-- Claim C1, counterexample: for the snapshot holding one result of
confidence exactly 1.0, the ten bin counts sum to 0, not to the snapshot
length 1 — the last bin's filter `c >= 0.9 && c < 1.0` excludes 1.0. -/
theorem confidence_one_breaks_sum :
    App.sumCounts (App.histogram [(1:ℚ)]) ≠ ([(1:ℚ)]).length := by
  decide

/-- Claim C1 (amended): for every snapshot, the sum of the 10 bin counts
of the histogram equals the number of results whose confidence lies in
[0, 1) — that is, `binCount snap 0 1`; results with confidence exactly 1.0
(or outside [0,1)) are counted in no bin. -/
theorem histogram_sum_counts_unit_interval (snap : List ℚ) :
    App.sumCounts (App.histogram snap) = App.binCount snap 0 1 :=
  App.histogram_sum_eq snap

/-- Claim C2, counterexample: the snapshot holding one result of
confidence exactly 1.0 yields all ten counts zero; in particular the last
bin is `("90-100%", 0)`, so confidence 1.0 is not counted in the last bin
(nor anywhere else), contrary to the claimed inclusive upper edge. -/
theorem confidence_one_in_no_bin :
    (App.histogram [(1:ℚ)]).map Prod.snd = List.replicate 10 0 ∧
      (App.histogram [(1:ℚ)]).getLastD ("", 0) = ("90-100%", 0) := by
  decide

/-- Claim C2 (amended): the histogram has exactly 10 bins, bin `i` holds
label `binLabel i` and the count of results with
`edges[i] <= c < edges[i+1]` (strict upper edge for every bin, the final
one included); a single result of confidence `c` is counted in bin `i`
iff `edges[i] <= c < edges[i+1]`, so a result with confidence exactly 1.0
is counted in no bin; no eleventh bin exists. -/
theorem histogram_bin_placement :
    (∀ snap : List ℚ, (App.histogram snap).length = 10) ∧
    (∀ (snap : List ℚ) (i : ℕ), i < 10 →
      (App.histogram snap)[i]? = some (App.binLabel i,
        App.binCount snap (App.binEdges.getD i 0) (App.binEdges.getD (i + 1) 0))) ∧
    (∀ (c : ℚ) (i : ℕ), i < 10 →
      (App.binCount [c] (App.binEdges.getD i 0) (App.binEdges.getD (i + 1) 0) = 1 ↔
        (App.binEdges.getD i 0 ≤ c ∧ c < App.binEdges.getD (i + 1) 0))) ∧
    (App.histogram [(1:ℚ)]).map Prod.snd = List.replicate 10 0 :=
  ⟨App.histogram_length,
   fun snap i h => App.histogram_getElem snap i h,
   fun c i _ => App.binCount_singleton c _ _,
   by decide⟩

/-- Claim C2, witness: the placement rule instantiated at confidence 0.25
and bin 2 (edges 0.2 and 0.3). -/
theorem histogram_bin_placement_witness :
    App.binCount [mkRat 1 4] (App.binEdges.getD 2 0) (App.binEdges.getD (2 + 1) 0) = 1 ↔
      (App.binEdges.getD 2 0 ≤ mkRat 1 4 ∧ mkRat 1 4 < App.binEdges.getD (2 + 1) 0) :=
  histogram_bin_placement.2.2.1 (mkRat 1 4) 2 (by decide)

/-- Claim C3, counterexample: a 2xx response whose parsed body has
confidence 1.5 (outside [0,1]) is treated as success and its result is
appended to the history — no ContractViolation error is raised. -/
theorem out_of_contract_body_appended :
    (App.handleSubmit "spam" 0 []
        (.response true (some App.badBody))).1 = .success App.badBody ∧
      (App.handleSubmit "spam" 0 []
        (.response true (some App.badBody))).2 = [App.mkResult "spam" 0 App.badBody] :=
  ⟨rfl, rfl⟩

/-- Claim C3 (amended): the client performs no contract validation on the
response body: every 2xx response whose body parses as JSON — even one
violating the spec contract (confidence outside [0,1] or a missing class
key) — yields success, and its result is appended to the History Store;
only transport failure, non-success status, or an unparseable body
produce an error. -/
theorem no_contract_validation :
    ∀ (kind : String) (ts : ℕ) (hist : List App.PredictionResult)
      (data : App.RespBody), App.contractOKSpec kind data = false →
      (App.handleSubmit kind ts hist (.response true (some data))).1
          = .success data ∧
        (App.handleSubmit kind ts hist (.response true (some data))).2
          = hist ++ [App.mkResult kind ts data] :=
  fun _ _ _ _ _ => ⟨rfl, rfl⟩

/-- Claim C3, witness: the amended statement at the spec's malformed
body, an empty history and kind "spam". -/
theorem no_contract_validation_witness :
    (App.handleSubmit "spam" 7 [] (.response true (some App.badBody))).1
        = .success App.badBody ∧
      (App.handleSubmit "spam" 7 [] (.response true (some App.badBody))).2
        = [] ++ [App.mkResult "spam" 7 App.badBody] :=
  no_contract_validation "spam" 7 [] App.badBody (by decide)

/-- Claim C4, counterexample: with one spam result appended and none of
kind malware, the chart filtered to "malware" hits the
`allPredictions.length === 0` early return and produces no histogram at
all — not ten zero-count bins. -/
theorem empty_filtered_snapshot_no_histogram :
    App.confidenceChart [App.exResult] [] "malware" = none ∧
      App.confidenceChart [App.exResult] [] "malware" ≠
        some ((List.range 10).map (fun i => (App.binLabel i, 0))) := by
  decide

/-- Claim C4 (amended): whenever the (optionally filtered) snapshot is
empty the chart returns early and produces no histogram; the binning map
itself, applied to an empty snapshot, does yield ten bins of count zero. -/
theorem empty_snapshot_chart :
    (∀ (spamHist malwareHist : List App.PredictionResult) (filterType : String),
      App.filteredPreds spamHist malwareHist filterType = [] →
        App.confidenceChart spamHist malwareHist filterType = none) ∧
    (App.histogram []).map Prod.snd = List.replicate 10 0 :=
  ⟨fun sh mh f h => by simp [App.confidenceChart, h], by decide⟩

/-- Claim C4, witness: the early return at the concrete input of the
counterexample scenario (one spam result, malware filter). -/
theorem empty_snapshot_chart_witness :
    App.confidenceChart [App.exResult] [] "malware" = none :=
  empty_snapshot_chart.1 [App.exResult] [] "malware" (by decide)

/-- Claim C5: the trend sequence never exceeds 20 points; when it is
full, one tick evicts the oldest point and appends the new one (FIFO);
and after 25 ticks the sequence is exactly the points of ticks 6..25 in
tick order (the first five dropped). -/
theorem trend_capacity_fifo :
    (∀ ps : List App.TrendPoint, (App.runTrend ps).length ≤ 20) ∧
    (∀ (prev : List App.TrendPoint) (p : App.TrendPoint), prev.length = 20 →
      App.pushTrend prev p = prev.tail ++ [p]) ∧
    (∀ ps : List App.TrendPoint, ps.length = 25 →
      App.runTrend ps = ps.drop 5) :=
  ⟨App.runTrend_length_le, App.pushTrend_full,
   fun ps h => by rw [App.runTrend_eq_drop, h]⟩

/-- Claim C5, witness: running the 25 concrete ticks of `tickList` leaves
exactly its last 20 points. -/
theorem trend_capacity_fifo_witness :
    App.runTrend App.tickList = App.tickList.drop 5 :=
  trend_capacity_fifo.2.2 App.tickList (by decide)

/-- Claim C6: for every failed prediction attempt — transport failure,
non-success status, or a body that fails parsing — the history partition
is returned unchanged and an error message is surfaced. -/
theorem failed_prediction_leaves_history :
    ∀ (kind : String) (ts : ℕ) (hist : List App.PredictionResult)
      (out : App.FetchOutcome), App.isFailureOutcome out = true →
      (App.handleSubmit kind ts hist out).2 = hist ∧
        App.isErrorOutcome (App.handleSubmit kind ts hist out).1 = true := by
  intro kind ts hist out h
  cases out with
  | transportFailure msg => exact ⟨rfl, rfl⟩
  | response ok body =>
    cases ok with
    | false => exact ⟨rfl, rfl⟩
    | true =>
      cases body with
      | some data => simp [App.isFailureOutcome] at h
      | none => exact ⟨rfl, rfl⟩

/-- Claim C6, witness: a transport failure at a one-element history
leaves it unchanged and surfaces an error. -/
theorem failed_prediction_leaves_history_witness :
    (App.handleSubmit "spam" 0 [App.exResult]
        (.transportFailure "Failed to fetch")).2 = [App.exResult] ∧
      App.isErrorOutcome (App.handleSubmit "spam" 0 [App.exResult]
        (.transportFailure "Failed to fetch")).1 = true :=
  failed_prediction_leaves_history "spam" 0 [App.exResult] _ (by decide)

/-- Claim C7, counterexample: the malware form record has 33 named
numeric fields (the UI itself says "Show All 33 Features"), not 32. -/
theorem malware_fields_not_32 :
    App.malwareFieldNames.length = 33 ∧ App.malwareFieldNames.length ≠ 32 := by
  decide

/-- Claim C7 (amended): a MalwareSample is a fixed-size record of exactly
33 distinct named numeric fields, and the malware predict request body is
the object with exactly those 33 named numeric fields. -/
theorem malware_sample_fields :
    App.malwareFieldNames.length = 33 ∧
      App.malwareFieldNames.Nodup ∧
      App.requestKeys App.initialFormData = App.malwareFieldNames := by
  refine ⟨by decide, by decide, by decide⟩

/-- Claim C8: for every emailText shorter than 10 characters, the submit
button is disabled, so the form cannot be submitted and no network
request is issued. -/
theorem spam_min_length_gate :
    ∀ (loading : Bool) (emailText : String), emailText.length < 10 →
      App.spamSubmitDisabled loading emailText = true ∧
        App.spamRequestIssued loading emailText = false := by
  intro loading s h
  have hd : decide (s.length < 10) = true := decide_eq_true h
  constructor
  · simp [App.spamSubmitDisabled, hd]
  · simp [App.spamRequestIssued, App.spamSubmitDisabled, hd]

/-- Claim C8, witness: a 9-character emailText keeps the gate closed. -/
theorem spam_min_length_gate_witness :
    App.spamSubmitDisabled false "too short" = true ∧
      App.spamRequestIssued false "too short" = false :=
  spam_min_length_gate false "too short" (by decide)

/-- Claim C9: for every random draw in [0,1), the simulated tick's spam
count lies in [5, 24] and its malware count lies in [3, 17]. -/
theorem tick_counts_bounded :
    ∀ (t : ℕ) (r1 r2 : ℚ), 0 ≤ r1 → r1 < 1 → 0 ≤ r2 → r2 < 1 →
      (5 ≤ (App.tickPoint t r1 r2).spam ∧ (App.tickPoint t r1 r2).spam ≤ 24) ∧
        (3 ≤ (App.tickPoint t r1 r2).malware ∧
          (App.tickPoint t r1 r2).malware ≤ 17) :=
  fun _ r1 r2 h0 h1 h2 h3 =>
    ⟨App.spamTickCount_bounds r1 h0 h1, App.malwareTickCount_bounds r2 h2 h3⟩

/-- Claim C9, witness: the bounds at the draw 1/2 for both counts. -/
theorem tick_counts_bounded_witness :
    (5 ≤ (App.tickPoint 0 (mkRat 1 2) (mkRat 1 2)).spam ∧
        (App.tickPoint 0 (mkRat 1 2) (mkRat 1 2)).spam ≤ 24) ∧
      (3 ≤ (App.tickPoint 0 (mkRat 1 2) (mkRat 1 2)).malware ∧
        (App.tickPoint 0 (mkRat 1 2) (mkRat 1 2)).malware ≤ 17) :=
  tick_counts_bounded 0 (mkRat 1 2) (mkRat 1 2)
    (by decide) (by decide) (by decide) (by decide)

/-- Claim C10: the stored field value after `handleChange` is an integer:
an input that does not parse (including the empty string) is silently
replaced by 0, and an input consisting of digits, a decimal point and a
fractional part parses to its integer part (the fraction is truncated,
because `parseInt` stops at the first non-digit). -/
theorem malware_handleChange_integer :
    (∀ s : String, App.jsParseInt s = none → App.handleChangeValue s = 0) ∧
      App.handleChangeValue "" = 0 ∧
      (∀ (ds rest : List Char), ds ≠ [] →
        (∀ c ∈ ds, App.isDigitChar c = true) →
        App.jsParseIntCore (ds ++ '.' :: rest)
          = some ((App.natOfDigitRun ds : ℕ) : ℤ)) :=
  ⟨fun s h => by rw [App.handleChangeValue, h]; rfl,
   rfl,
   App.jsParseIntCore_digit_run⟩

/-- Claim C10, witness: the input "3.7" parses to 3 (fraction truncated),
and the empty input is stored as 0. -/
theorem malware_handleChange_integer_witness :
    App.jsParseIntCore (['3'] ++ '.' :: ['7'])
        = some ((App.natOfDigitRun ['3'] : ℕ) : ℤ) ∧
      App.handleChangeValue "" = 0 :=
  ⟨malware_handleChange_integer.2.2 ['3'] ['7'] (by decide) (by decide),
   malware_handleChange_integer.2.1⟩
